import Mathlib

/-!
# Verification of `scripts/diff_l10n_branches.py`

Shallow embedding of the l10n branch-diff report script.  The script is a
single classification pass over the lines of a `git diff --name-status`
output followed by the rendering of a jinja2 template.

External git is modelled as an oracle (`Git`): the script only calls three
read-only operations (name-status enumeration, per-file diff with or without
`--shortstat`, and `git cat-file -e` existence testing), so the embedding is
parametric in those.  Fallible Python indexing (`diff_status[0]`, `[1]`,
`[2]`, which can raise `IndexError`) is modelled with `Option`; the
module-level accumulator lists become explicit state threaded through the
pass.
-/

namespace DiffL10n

/-- Oracle for the external git binary.  `nameStatus l r pathspec` is the raw
output of `git diff l r --name-status -- pathspec`; `diffFull l r fp` that of
`git diff l r -- fp`; `diffShortstat l r fp` that of
`git diff l r --shortstat -- fp`; `catFileExists rev fp` is true iff
`git cat-file -e rev:fp` exits with code 0 (the `git_exists` helper). -/
structure Git where
  nameStatus : String → String → String → String
  diffFull : String → String → String → String
  diffShortstat : String → String → String → String
  catFileExists : String → String → Bool

/-- One entry of `files_to_be_modified`: the dict
`{"filepath": ..., "shortstat": ..., "diff": ...}` built in
`process_diff_status`. -/
structure ModifiedEntry where
  filepath : String
  shortstat : String
  diff : String
deriving DecidableEq, Repr

/-- One entry of `files_to_be_renamed`: the dict
`{"diff_status_letter": ..., "src_filepath": ..., "dest_filepath": ...}`. -/
structure RenamedEntry where
  diff_status_letter : String
  src_filepath : String
  dest_filepath : String
deriving DecidableEq, Repr

/-- The three module-level accumulator lists of the script
(`files_to_be_deleted`, `files_to_be_renamed`, `files_to_be_modified`),
threaded explicitly instead of being global mutable state. -/
structure Lists where
  files_to_be_deleted : List String
  files_to_be_renamed : List RenamedEntry
  files_to_be_modified : List ModifiedEntry
deriving DecidableEq, Repr

/-- The initial state: all three lists are created empty at module load. -/
def Lists.empty : Lists := ⟨[], [], []⟩

/-- Componentwise concatenation of two states. -/
def Lists.append (a b : Lists) : Lists :=
  ⟨a.files_to_be_deleted ++ b.files_to_be_deleted,
   a.files_to_be_renamed ++ b.files_to_be_renamed,
   a.files_to_be_modified ++ b.files_to_be_modified⟩

/-- The ASCII whitespace characters recognised by Python's `str.split()`,
`str.splitlines()` and `strip()` (the script's data is git path and diff
output, so the further Unicode whitespace of Python's `str` never occurs). -/
def pyWhitespaceChar (c : Char) : Bool :=
  c = ' ' || c = '\t' || c = '\n' || c = '\x0d' || c = '\x0b' || c = '\x0c'

/-- Helper for `pySplit`: walk the characters, `cur` holding the reversed
current field. -/
def pySplitGo : List Char → List Char → List String
  | [], cur => if cur = [] then [] else [String.mk cur.reverse]
  | c :: rest, cur =>
    if pyWhitespaceChar c then
      if cur = [] then pySplitGo rest []
      else String.mk cur.reverse :: pySplitGo rest []
    else pySplitGo rest (c :: cur)

/-- Python `str.split()` with no argument: split on runs of whitespace,
discarding empty fields. -/
def pySplit (s : String) : List String :=
  pySplitGo s.data []

/-- Helper for `pySplitlines`: split at every newline, keeping empty
fields. -/
def pySplitlinesGo : List Char → List Char → List String
  | [], cur => [String.mk cur.reverse]
  | c :: rest, cur =>
    if c = '\n' then String.mk cur.reverse :: pySplitlinesGo rest []
    else pySplitlinesGo rest (c :: cur)

/-- Python `str.splitlines()` for newline-separated text (git's output never
contains the other line terminators Python recognises): the empty string
yields no lines, a trailing newline yields no trailing empty line. -/
def pySplitlines (s : String) : List String :=
  if s = "" then []
  else if s.data.getLast? = some '\n' then (pySplitlinesGo s.data []).dropLast
  else pySplitlinesGo s.data []

/-- Python `strip()` with no argument: drop leading and trailing
whitespace. -/
def pyStrip (s : String) : String :=
  String.mk (((s.data.dropWhile pyWhitespaceChar).reverse.dropWhile
    pyWhitespaceChar).reverse)

/-- Python `str.startswith(prefix)`. -/
def pyStartsWith (s pre : String) : Bool :=
  pre.data.isPrefixOf s.data

/-- Helper for `pyReplace`, recursing on fuel (one unit per character
consumed suffices, since a match consumes at least one character). -/
def pyReplaceGo : Nat → List Char → List Char → List Char → List Char
  | 0, cs, _, _ => cs
  | _ + 1, [], _, _ => []
  | fuel + 1, c :: rest, old, new =>
    if old.isPrefixOf (c :: rest) && !old.isEmpty then
      new ++ pyReplaceGo fuel (rest.drop (old.length - 1)) old new
    else c :: pyReplaceGo fuel rest old new

/-- Python `str.replace(old, new)` for a non-empty pattern: replace every
non-overlapping occurrence of `old` by `new`, scanning left to right.  (For
the empty pattern Python interleaves `new` everywhere; the script only ever
substitutes the non-empty path `content/<src-lang>`, so the plain-copy
behaviour chosen here for `old = ""` is never exercised.) -/
def pyReplace (s old new : String) : String :=
  String.mk (pyReplaceGo s.data.length s.data old.data new.data)

/-- Embedding of `git_diff(filepath, l_commit, r_commit, shortstat)`: run
the external diff and strip the decoded output. -/
def git_diff (g : Git) (filepath l_commit r_commit : String)
    (shortstat : Bool) : String :=
  if shortstat then pyStrip (g.diffShortstat l_commit r_commit filepath)
  else pyStrip (g.diffFull l_commit r_commit filepath)

/-- Embedding of `process_diff_status(diff_status, l_commit, r_commit,
src_lang_path, l10n_lang_path)`.  `diff_status` is the whitespace-split line; the unchecked
Python indexings `diff_status[0]`, `diff_status[1]` and (in the rename
branch) `diff_status[2]` become `Option` binds, so `none` models an uncaught
`IndexError`.  The three global lists become the threaded state `st`. -/
def process_diff_status (g : Git) (diff_status : List String)
    (l_commit r_commit src_lang_path l10n_lang_path : String)
    (st : Lists) : Option Lists := do
  let status_letter ← diff_status[0]?
  let filepath ← diff_status[1]?
  if g.catFileExists r_commit (pyReplace filepath src_lang_path l10n_lang_path) then
    if status_letter = "D" then
      pure { st with files_to_be_deleted := st.files_to_be_deleted ++ [filepath] }
    else if pyStartsWith status_letter "R" then
      let dest ← diff_status[2]?
      pure { st with files_to_be_renamed :=
        st.files_to_be_renamed ++ [⟨status_letter, filepath, dest⟩] }
    else if status_letter = "M" then
      pure { st with files_to_be_modified := st.files_to_be_modified ++
        [⟨filepath, git_diff g filepath l_commit r_commit true,
          git_diff g filepath l_commit r_commit false⟩] }
    else
      pure st
  else
    pure st

/-- Embedding of `git_diff_name_status(l_commit, r_commit, src_lang_path,
l10n_lang_path)`: enumerate the name-status lines between the two revisions
scoped to `src_lang_path`, split each on whitespace, and feed it to
`process_diff_status`, threading the accumulator state. -/
def git_diff_name_status (g : Git)
    (l_commit r_commit src_lang_path l10n_lang_path : String)
    (st : Lists) : Option Lists :=
  (pySplitlines (pyStrip (g.nameStatus l_commit r_commit src_lang_path))).foldlM
    (fun s line =>
      process_diff_status g (pySplit line) l_commit r_commit src_lang_path
        l10n_lang_path s) st

/-!
## The issue template

`ISSUE_TEMPLATE` is rendered with jinja2 default settings: `trim_blocks` and
`lstrip_blocks` are off (so the newline after a `\x7b% ... %\x7d` block tag is
kept) and `keep_trailing_newline` is off (so exactly one trailing newline of
the template is dropped).  The three `for` tags use the `-%\x7d` whitespace
control, which strips the newline and the two-space indentation that follow
them inside the loop body, so every checklist item renders at column 0.  The
`## Proposed Solution` heading stands *outside* the
`\x7b% if files_to_be_modified %\x7d` block; only the worked example between the
`if` and `endif` tags is conditional.
-/

/-- One rendered line of the modified-files checklist. -/
def modifiedItemLine (m : ModifiedEntry) : String :=
  "1. [ ] " ++ m.filepath ++ " " ++ m.shortstat ++ "\n"

/-- One rendered line of the renamed-files checklist. -/
def renamedItemLine (rn : RenamedEntry) : String :=
  "1. [ ] " ++ rn.diff_status_letter ++ " " ++ rn.src_filepath ++ " -> "
    ++ rn.dest_filepath ++ "\n"

/-- One rendered line of the deleted-files checklist. -/
def deletedItemLine (d : String) : String :=
  "1. [ ] " ++ d ++ "\n"

/-- The fixed report preamble, naming the newer revision. -/
def reportHeader (r_commit : String) : String :=
  "# This is a Bug Report\n## Problem\nOutdated files in the " ++ r_commit
    ++ " branch.\n\n"

/-- The modified-files checklist section (note the trailing space of the
heading line, present in the template). -/
def modifiedSection (modified : List ModifiedEntry) : String :=
  "### " ++ toString modified.length ++ " files to be modified \n"
    ++ String.join (modified.map modifiedItemLine) ++ "\n\n"

/-- The renamed-files checklist section (the template heading carries two
trailing spaces). -/
def renamedSection (renamed : List RenamedEntry) : String :=
  "### " ++ toString renamed.length ++ " files to be renamed  \n"
    ++ String.join (renamed.map renamedItemLine) ++ "\n\n"

/-- The deleted-files checklist section. -/
def deletedSection (deleted : List String) : String :=
  "### " ++ toString deleted.length ++ " files to be deleted \n"
    ++ String.join (deleted.map deletedItemLine) ++ "\n\n"

/-- The example `git diff` invocation of the worked example, for the first
modified file's path. -/
def gitDiffExampleLine (l_commit r_commit fp : String) : String :=
  "git diff " ++ l_commit ++ " " ++ r_commit ++ " -- " ++ fp ++ "\n"

/-- The example edit command of the worked example: the first modified
file's path with `src_lang_path` replaced by `l10n_lang_path`. -/
def viExampleLine (fp src_lang_path l10n_lang_path : String) : String :=
  "vi " ++ pyReplace fp src_lang_path l10n_lang_path ++ "\n"

/-- The body of the `if files_to_be_modified` block: the worked example,
rendered only when the modified list is non-empty, referring to the *first*
modified entry (`files_to_be_modified.0`). -/
def solutionBody (l_commit r_commit src_lang_path l10n_lang_path : String)
    (m0 : ModifiedEntry) : String :=
  "\n\nUse `git diff` to check what is changed in the upstream. And apply the upstream changes manually \nto the `"
    ++ l10n_lang_path ++ "` of `" ++ r_commit ++ "` branch.\n\nFor example:\n```\n# checkout `"
    ++ r_commit ++ "`\n...\n# check what is updated in the upstream \n"
    ++ gitDiffExampleLine l_commit r_commit m0.filepath
    ++ "# apply changes to content/ko\n"
    ++ viExampleLine m0.filepath src_lang_path l10n_lang_path
    ++ "...\n# commit and push\n...\n# make PR to `" ++ r_commit ++ "`\n```\n\n"

/-- The `## Proposed Solution` region: the heading is unconditional, the
worked example appears only when the modified list is non-empty. -/
def proposedSolutionSection
    (l_commit r_commit src_lang_path l10n_lang_path : String)
    (modified : List ModifiedEntry) : String :=
  "## Proposed Solution\n\n"
    ++ (match modified with
        | [] => ""
        | m0 :: _ => solutionBody l_commit r_commit src_lang_path l10n_lang_path m0)

/-- The trailing empty `## Pages to Update` section (one trailing template
newline dropped by jinja2's `keep_trailing_newline=False`). -/
def pagesToUpdateSection : String := "\n\n## Pages to Update\n"

/-- Embedding of `jinja2.Template(ISSUE_TEMPLATE).render(...)` with the
script's render arguments. -/
def renderIssueTemplate
    (l_commit r_commit src_lang_path l10n_lang_path : String)
    (lists : Lists) : String :=
  reportHeader r_commit
    ++ modifiedSection lists.files_to_be_modified
    ++ renamedSection lists.files_to_be_renamed
    ++ deletedSection lists.files_to_be_deleted
    ++ proposedSolutionSection l_commit r_commit src_lang_path l10n_lang_path
        lists.files_to_be_modified
    ++ pagesToUpdateSection

/-- The whole `main` command body: map the language codes to paths by the
`content/<code>` convention, run the classification pass from the empty
state, and render the template.  `none` models the process dying with an
uncaught `IndexError`. -/
def mainRun (g : Git) (l10n_lang src_lang l_commit r_commit : String) :
    Option String :=
  let l10n_lang_path := "content/" ++ l10n_lang
  let src_lang_path := "content/" ++ src_lang
  (git_diff_name_status g l_commit r_commit src_lang_path l10n_lang_path
      Lists.empty).map
    (renderIssueTemplate l_commit r_commit src_lang_path l10n_lang_path)

/-!
## Statement-side definitions

Vocabulary used to state the claims: a substring test, the entry built for
a qualifying `M` line, and the list of `M`-line paths whose localized
counterpart exists.  Concrete git oracles provide witness inputs.
-/

/-- Whether `pat` occurs as a contiguous segment of the character list. -/
def listContainsSeg (pat : List Char) : List Char → Bool
  | [] => pat.isEmpty
  | c :: rest => pat.isPrefixOf (c :: rest) || listContainsSeg pat rest

/-- Whether `pat` occurs as a substring of `s`. -/
def strContains (s pat : String) : Bool :=
  listContainsSeg pat.data s.data

/-- The `files_to_be_modified` entry that `process_diff_status` builds for a
modified file `fp`. -/
def modifiedEntryFor (g : Git) (l_commit r_commit fp : String) : ModifiedEntry :=
  ⟨fp, pyStrip (g.diffShortstat l_commit r_commit fp),
    pyStrip (g.diffFull l_commit r_commit fp)⟩

/-- The source path contributed by one split diff line to the modified list:
`[fp]` when the line has status token `M` and the localized counterpart of
`fp` exists at the newer revision, `[]` otherwise. -/
def mLineQualified (g : Git) (r_commit src_lang_path l10n_lang_path : String)
    (ds : List String) : List String :=
  match ds with
  | tok :: fp :: _ =>
    if tok = "M" then
      if g.catFileExists r_commit (pyReplace fp src_lang_path l10n_lang_path)
      then [fp] else []
    else []
  | _ => []

/-- The source paths of all name-status lines with token `M` whose localized
counterpart exists at the newer revision, in output order. -/
def qualifiedMPaths (g : Git) (l_commit r_commit src_lang_path l10n_lang_path : String) :
    List String :=
  (pySplitlines (pyStrip (g.nameStatus l_commit r_commit src_lang_path))).flatMap
    (fun line => mLineQualified g r_commit src_lang_path l10n_lang_path (pySplit line))

/-- A concrete git oracle for witnesses: one modified, one deleted, one
renamed and one type-changed path, every existence check succeeding. -/
def gitAllExists : Git where
  nameStatus := fun _ _ _ =>
    "M\tcontent/en/docs/a.md\nD\tcontent/en/docs/b.md\nR100\tcontent/en/docs/c.md\tcontent/en/docs/d.md\nT\tcontent/en/docs/e.md"
  diffFull := fun _ _ fp => "diff --git a/" ++ fp
  diffShortstat := fun _ _ _ => "1 file changed"
  catFileExists := fun _ _ => true

/-- A concrete git oracle for witnesses on which every existence check
fails. -/
def gitNoneExists : Git where
  nameStatus := fun _ _ _ => "M\tcontent/en/docs/a.md"
  diffFull := fun _ _ _ => ""
  diffShortstat := fun _ _ _ => ""
  catFileExists := fun _ _ => false

/-- A concrete git oracle for witnesses whose name-status output is empty
(no changed paths between the revisions). -/
def gitNoChanges : Git where
  nameStatus := fun _ _ _ => ""
  diffFull := fun _ _ _ => ""
  diffShortstat := fun _ _ _ => ""
  catFileExists := fun _ _ => true

end DiffL10n

namespace SpecSide

/-!
## Spec-side renderer

A second renderer, written from the specification's §4.2 wording alone
("Produces a markdown document with these fixed fields, in order: ..."), to
be compared with `DiffL10n.renderIssueTemplate`, which is transcribed from
the jinja2 template in the source.  The spec does not fix whitespace, so the
source's spacing is adopted; what the comparison checks is the fields, their
order, the per-item formats, the count/length agreement, and the
conditional solution content.
-/

open DiffL10n in
/-- Spec §4.2 item 1: "A header naming the newer revision." -/
def header (newer_revision : String) : String :=
  "# This is a Bug Report\n## Problem\nOutdated files in the "
    ++ newer_revision ++ " branch.\n\n"

open DiffL10n in
/-- Spec §4.2 item 2: "A checklist section counting and listing modified
files, each with its condensed change summary." -/
def modifiedChecklist (modified : List ModifiedEntry) : String :=
  "### " ++ toString modified.length ++ " files to be modified \n"
    ++ String.join (modified.map
        (fun m => "1. [ ] " ++ m.filepath ++ " " ++ m.shortstat ++ "\n"))
    ++ "\n\n"

open DiffL10n in
/-- Spec §4.2 item 3: "A checklist section counting and listing renames as
`status_letter old_path -> new_path`." -/
def renamedChecklist (renamed : List RenamedEntry) : String :=
  "### " ++ toString renamed.length ++ " files to be renamed  \n"
    ++ String.join (renamed.map
        (fun rn => "1. [ ] " ++ rn.diff_status_letter ++ " "
          ++ rn.src_filepath ++ " -> " ++ rn.dest_filepath ++ "\n"))
    ++ "\n\n"

/-- Spec §4.2 item 4: "A checklist section counting and listing deleted
file paths." -/
def deletedChecklist (deleted : List String) : String :=
  "### " ++ toString deleted.length ++ " files to be deleted \n"
    ++ String.join (deleted.map (fun d => "1. [ ] " ++ d ++ "\n"))
    ++ "\n\n"

open DiffL10n in
/-- Spec §4.2 item 5: the proposed-solution content, conditional on the
modified list being non-empty, "containing a worked example: a `git diff`
invocation between the two revisions for the *first* modified file's path,
plus an edit command pointing at that file's path with `source_path`
replaced by `target_path`" (the heading itself is what the source template
renders unconditionally; see the theorems on claim C1). -/
def solution (older newer source_path target_path : String)
    (modified : List ModifiedEntry) : String :=
  "## Proposed Solution\n\n"
    ++ (match modified with
        | [] => ""
        | m0 :: _ =>
          "\n\nUse `git diff` to check what is changed in the upstream. And apply the upstream changes manually \nto the `"
            ++ target_path ++ "` of `" ++ newer ++ "` branch.\n\nFor example:\n```\n# checkout `"
            ++ newer ++ "`\n...\n# check what is updated in the upstream \n"
            ++ ("git diff " ++ older ++ " " ++ newer ++ " -- " ++ m0.filepath ++ "\n")
            ++ "# apply changes to content/ko\n"
            ++ ("vi " ++ DiffL10n.pyReplace m0.filepath source_path target_path ++ "\n")
            ++ "...\n# commit and push\n...\n# make PR to `" ++ newer ++ "`\n```\n\n")

/-- Spec §4.2 item 6: "A trailing empty \"Pages to Update\" section for
manual completion." -/
def pagesToUpdate : String := "\n\n## Pages to Update\n"

open DiffL10n in
/-- Spec §4.2 contract `render(older_revision, newer_revision, source_path,
target_path, modified[], renamed[], deleted[]) -> text`, the six fields
concatenated in the spec's order. -/
def render (older newer source_path target_path : String)
    (modified : List ModifiedEntry) (renamed : List RenamedEntry)
    (deleted : List String) : String :=
  header newer
    ++ modifiedChecklist modified
    ++ renamedChecklist renamed
    ++ deletedChecklist deleted
    ++ solution older newer source_path target_path modified
    ++ pagesToUpdate

end SpecSide

namespace DiffL10n

/-! ## Basic lemmas -/

/-- Appending to the empty state is the identity. -/
theorem Lists.empty_append (a : Lists) : Lists.empty.append a = a := by
  cases a; simp [Lists.append, Lists.empty]

/-- Componentwise state concatenation is associative. -/
theorem Lists.append_assoc (a b c : Lists) :
    (a.append b).append c = a.append (b.append c) := by
  cases a; cases b; cases c; simp [Lists.append]

/-- A diff line that splits into no tokens dies with `IndexError` on
`diff_status[0]`. -/
theorem process_diff_status_nil (g : Git) (l r s t : String) (st : Lists) :
    process_diff_status g [] l r s t st = none := rfl

/-- A diff line with a single token dies with `IndexError` on
`diff_status[1]`. -/
theorem process_diff_status_single (g : Git) (tok l r s t : String) (st : Lists) :
    process_diff_status g [tok] l r s t st = none := rfl

/-- Unfolding of `process_diff_status` on a line with at least two tokens:
the existence gate on the substituted path, then the `D` / `R...` / `M` /
other-token dispatch of the source. -/
theorem process_diff_status_cons (g : Git) (tok fp : String) (rest : List String)
    (l r s t : String) (st : Lists) :
    process_diff_status g (tok :: fp :: rest) l r s t st =
      if g.catFileExists r (pyReplace fp s t) then
        if tok = "D" then
          some { st with files_to_be_deleted := st.files_to_be_deleted ++ [fp] }
        else if pyStartsWith tok "R" then
          rest[0]?.bind (fun dest => some { st with files_to_be_renamed :=
            st.files_to_be_renamed ++ [⟨tok, fp, dest⟩] })
        else if tok = "M" then
          some { st with files_to_be_modified := st.files_to_be_modified ++
            [modifiedEntryFor g l r fp] }
        else some st
      else some st := by
  simp only [process_diff_status, git_diff, modifiedEntryFor, List.getElem?_cons_zero,
    List.getElem?_cons_succ, Option.bind_eq_bind, Option.some_bind, Option.pure_def,
    Bool.false_eq_true, if_true, if_false, ite_true, ite_false]

/-! ## Claims -/

/-- Claim C2: for every diff status line processed, an entry derived from
that line appears in any of the three lists only if the localized
counterpart path (the line's primary path with the source path substituted
by the target path) exists as a tracked object at the newer revision; a
line whose counterpart does not exist contributes no entry to any list —
the state is returned unchanged. -/
theorem claim_c2_missing_counterpart_drops_line (g : Git) (ds : List String)
    (l r s t : String) (st : Lists) (fp : String)
    (h1 : ds[1]? = some fp)
    (hex : g.catFileExists r (pyReplace fp s t) = false) :
    process_diff_status g ds l r s t st = some st := by
  cases ds with
  | nil => simp at h1
  | cons tok ds' =>
    cases ds' with
    | nil => simp at h1
    | cons fp' rest =>
      simp only [List.getElem?_cons_succ, List.getElem?_cons_zero,
        Option.some.injEq] at h1
      subst h1
      rw [process_diff_status_cons, hex]
      simp

/-- Witness for C2 at a concrete input: with an oracle on which every
existence check fails, an `M` line leaves the state untouched. -/
theorem claim_c2_missing_counterpart_drops_line_witness :
    process_diff_status gitNoneExists ["M", "content/en/docs/a.md"] "L" "R"
      "content/en" "content/ko" Lists.empty = some Lists.empty :=
  claim_c2_missing_counterpart_drops_line gitNoneExists
    ["M", "content/en/docs/a.md"] "L" "R" "content/en" "content/ko"
    Lists.empty "content/en/docs/a.md" (by decide) (by decide)

/-- Claim C3: for every diff status line whose localized counterpart exists
at the newer revision, dispatch is on the status token: token `D` appends
the source path to the deleted list, a token starting with `R` appends the
{token, old, new} entry to the renamed list, token `M` appends the
modified entry, and a line with any other status token is silently
ignored, appending to no list and raising no error. -/
theorem claim_c3_status_dispatch (g : Git) (ds : List String)
    (l r s t : String) (st : Lists) (tok fp : String)
    (h0 : ds[0]? = some tok) (h1 : ds[1]? = some fp)
    (hex : g.catFileExists r (pyReplace fp s t) = true) :
    (tok = "D" → process_diff_status g ds l r s t st =
      some { st with files_to_be_deleted := st.files_to_be_deleted ++ [fp] }) ∧
    (∀ dest, pyStartsWith tok "R" = true → ds[2]? = some dest →
      process_diff_status g ds l r s t st =
        some { st with files_to_be_renamed :=
          st.files_to_be_renamed ++ [⟨tok, fp, dest⟩] }) ∧
    (tok = "M" → process_diff_status g ds l r s t st =
      some { st with files_to_be_modified :=
        st.files_to_be_modified ++ [modifiedEntryFor g l r fp] }) ∧
    (tok ≠ "D" → pyStartsWith tok "R" = false → tok ≠ "M" →
      process_diff_status g ds l r s t st = some st) := by
  obtain ⟨rest, rfl⟩ : ∃ rest, ds = tok :: fp :: rest := by
    cases ds with
    | nil => simp at h1
    | cons a ds' =>
      cases ds' with
      | nil => simp at h1
      | cons b rest =>
        simp only [List.getElem?_cons_succ, List.getElem?_cons_zero,
          Option.some.injEq] at h0 h1
        exact ⟨rest, by rw [h0, h1]⟩
  rw [process_diff_status_cons, hex]
  refine ⟨fun hD => by simp [hD], fun dest hR h2 => ?_, fun hM => ?_,
    fun hD hR hM => by simp [hD, hR, hM]⟩
  · have hD : tok ≠ "D" := fun h => by rw [h] at hR; exact absurd hR (by decide)
    simp only [List.getElem?_cons_succ, List.getElem?_cons_zero] at h2
    simp [hD, hR, h2]
  · simp [hM, (by decide : ¬ ("M" : String) = "D"),
      (by decide : pyStartsWith "M" "R" = false)]

/-- Witness for C3 at a concrete input: a `D` line whose counterpart exists
appends the source path to the deleted list. -/
theorem claim_c3_status_dispatch_witness :
    process_diff_status gitAllExists ["D", "content/en/docs/b.md"] "L" "R"
      "content/en" "content/ko" Lists.empty =
      some ⟨["content/en/docs/b.md"], [], []⟩ :=
  (claim_c3_status_dispatch gitAllExists ["D", "content/en/docs/b.md"] "L" "R"
    "content/en" "content/ko" Lists.empty "D" "content/en/docs/b.md"
    (by decide) (by decide) (by decide)).1 rfl

/-- Claim C4: for every diff status line whose token starts with `R` (any
similarity percentage), the existence check is performed on the localized
counterpart of the old (first) path, and when that counterpart exists
exactly one entry {status token, old path, new path} is appended to the
renamed list for that line. -/
theorem claim_c4_rename_entry (g : Git) (tok oldPath newPath : String)
    (rest : List String) (l r s t : String) (st : Lists)
    (hR : pyStartsWith tok "R" = true) :
    process_diff_status g (tok :: oldPath :: newPath :: rest) l r s t st =
      some (if g.catFileExists r (pyReplace oldPath s t) then
              { st with files_to_be_renamed :=
                st.files_to_be_renamed ++ [⟨tok, oldPath, newPath⟩] }
            else st) := by
  have hD : tok ≠ "D" := fun h => by subst h; exact absurd hR (by decide)
  rw [process_diff_status_cons]
  by_cases hex : g.catFileExists r (pyReplace oldPath s t) <;>
    simp [hex, hD, hR]

/-- Witness for C4 at a concrete input: an `R100` line with both paths,
counterpart existing, appends exactly the one renamed entry. -/
theorem claim_c4_rename_entry_witness :
    process_diff_status gitAllExists
      ["R100", "content/en/docs/c.md", "content/en/docs/d.md"] "L" "R"
      "content/en" "content/ko" Lists.empty =
      some ⟨[], [⟨"R100", "content/en/docs/c.md", "content/en/docs/d.md"⟩], []⟩ := by
  rw [claim_c4_rename_entry gitAllExists "R100" "content/en/docs/c.md"
    "content/en/docs/d.md" [] "L" "R" "content/en" "content/ko" Lists.empty
    (by decide)]
  decide

/-- Claim C5: when the name-and-status diff between the two revisions
yields zero changed paths (empty output), the classification pass
terminates normally (`some`, not the `none` of an uncaught exception) with
all three lists empty. -/
theorem claim_c5_empty_diff_output (g : Git) (l r s t : String)
    (h : pyStrip (g.nameStatus l r s) = "") :
    git_diff_name_status g l r s t Lists.empty = some Lists.empty := by
  unfold git_diff_name_status
  rw [h]
  rfl

/-- Witness for C5 at a concrete input: an oracle whose name-status output
is empty yields the empty classification. -/
theorem claim_c5_empty_diff_output_witness :
    git_diff_name_status gitNoChanges "L" "R" "content/en" "content/ko"
      Lists.empty = some Lists.empty :=
  claim_c5_empty_diff_output gitNoChanges "L" "R" "content/en" "content/ko"
    (by decide)

/-- Counterexample to claim C9 as stated: an `R` status line with fewer
than three tokens does *not* always raise an uncaught `IndexError` — when
the localized counterpart of its old path does not exist, the existence
gate (which precedes the `diff_status[2]` access) drops the line and
processing returns normally with the state unchanged. -/
theorem claim_c9_counterexample :
    process_diff_status gitNoneExists ["R100", "content/en/docs/c.md"] "L" "R"
      "content/en" "content/ko" Lists.empty = some Lists.empty := by
  decide

/-- Claim C9 as amended: diff lines are tokenized by splitting on arbitrary
whitespace (so a path containing whitespace is truncated at its first
whitespace); a line with fewer than two tokens raises an uncaught
`IndexError` (modelled `none`); an `R` line with fewer than three tokens
raises an uncaught `IndexError` when its localized counterpart exists. -/
theorem claim_c9_short_lines_raise (g : Git) (l r s t : String) (st : Lists) :
    (process_diff_status g [] l r s t st = none) ∧
    (∀ tok, process_diff_status g [tok] l r s t st = none) ∧
    (∀ tok fp, pyStartsWith tok "R" = true →
      g.catFileExists r (pyReplace fp s t) = true →
      process_diff_status g [tok, fp] l r s t st = none) ∧
    (pySplit "M content/en/with space.md" = ["M", "content/en/with", "space.md"]) := by
  refine ⟨rfl, fun tok => rfl, fun tok fp hR hex => ?_, by decide⟩
  have hD : tok ≠ "D" := fun h => by subst h; exact absurd hR (by decide)
  rw [process_diff_status_cons, hex]
  simp [hD, hR]

/-- Witness for the amended C9 at a concrete input: an `R` line with two
tokens whose counterpart exists dies with `IndexError`. -/
theorem claim_c9_short_lines_raise_witness :
    process_diff_status gitAllExists ["R100", "content/en/docs/c.md"] "L" "R"
      "content/en" "content/ko" Lists.empty = none :=
  (claim_c9_short_lines_raise gitAllExists "L" "R" "content/en" "content/ko"
    Lists.empty).2.2.1 "R100" "content/en/docs/c.md" (by decide) (by decide)

/-- Appending the empty state on the right is the identity. -/
theorem Lists.append_empty (a : Lists) : a.append Lists.empty = a := by
  cases a; simp [Lists.append, Lists.empty]

/-- Processing one line from an arbitrary initial state appends the same
delta that processing it from the empty state produces: each branch only
ever appends to the lists, with content independent of the current state. -/
theorem process_diff_status_append (g : Git) (ds : List String)
    (l r s t : String) (st : Lists) :
    process_diff_status g ds l r s t st =
      (process_diff_status g ds l r s t Lists.empty).map (st.append ·) := by
  obtain ⟨d0, rn0, m0⟩ := st
  cases ds with
  | nil => rfl
  | cons tok ds' =>
    cases ds' with
    | nil => rfl
    | cons fp rest =>
      rw [process_diff_status_cons, process_diff_status_cons]
      by_cases hex : g.catFileExists r (pyReplace fp s t)
      · by_cases hD : tok = "D"
        · simp [hex, hD, Lists.append, Lists.empty]
        · by_cases hR : pyStartsWith tok "R"
          · cases h2 : rest[0]? with
            | none => simp [hex, hD, hR, h2]
            | some dest => simp [hex, hD, hR, h2, Lists.append, Lists.empty]
          · by_cases hM : tok = "M"
            · simp [hex, hD, hM, (by decide : pyStartsWith "M" "R" = false),
                Lists.append, Lists.empty]
            · simp [hex, hD, hR, hM, Lists.append, Lists.empty]
      · simp [hex, Lists.append, Lists.empty]

/-- The whole classification pass from an arbitrary initial state appends
the same delta that the pass from the empty state produces. -/
theorem foldlM_process_append (g : Git) (l r s t : String)
    (lines : List String) (st : Lists) :
    lines.foldlM
      (fun acc line => process_diff_status g (pySplit line) l r s t acc) st =
      (lines.foldlM
        (fun acc line => process_diff_status g (pySplit line) l r s t acc)
        Lists.empty).map (st.append ·) := by
  induction lines generalizing st with
  | nil => simp [Lists.append_empty]
  | cons line rest ih =>
    rw [List.foldlM_cons, List.foldlM_cons]
    rw [process_diff_status_append g (pySplit line) l r s t st]
    cases h : process_diff_status g (pySplit line) l r s t Lists.empty with
    | none => simp [h]
    | some δ =>
      simp only [h, Option.map_some', Option.bind_eq_bind, Option.some_bind]
      rw [ih, ih δ, Option.map_map]
      congr 1
      funext y
      simp [Function.comp, Lists.append_assoc]

/-- Running `git_diff_name_status` from an arbitrary initial state appends
the delta of the pass from the empty state. -/
theorem git_diff_name_status_append (g : Git) (l r s t : String) (st : Lists) :
    git_diff_name_status g l r s t st =
      (git_diff_name_status g l r s t Lists.empty).map (st.append ·) := by
  unfold git_diff_name_status
  exact foldlM_process_append g l r s t _ st

/-- Claim C10: the three result lists are only ever appended to and never
reset, so running the classification pass a second time over the same diff
output (here: from the state the first pass produced) yields lists equal to
the concatenation of two copies of the single-pass result — classification
is not idempotent across invocations within one process. -/
theorem claim_c10_second_pass_doubles (g : Git) (l r s t : String) (d : Lists)
    (h : git_diff_name_status g l r s t Lists.empty = some d) :
    git_diff_name_status g l r s t d =
      some ⟨d.files_to_be_deleted ++ d.files_to_be_deleted,
            d.files_to_be_renamed ++ d.files_to_be_renamed,
            d.files_to_be_modified ++ d.files_to_be_modified⟩ := by
  rw [git_diff_name_status_append, h]
  rfl

/-- Witness for C10 at a concrete input: after one pass produced one entry
in each list, the second pass doubles every list. -/
theorem claim_c10_second_pass_doubles_witness :
    git_diff_name_status gitAllExists "L" "R" "content/en" "content/ko"
      ⟨["content/en/docs/b.md"],
       [⟨"R100", "content/en/docs/c.md", "content/en/docs/d.md"⟩],
       [⟨"content/en/docs/a.md", "1 file changed",
         "diff --git a/content/en/docs/a.md"⟩]⟩ =
      some ⟨["content/en/docs/b.md", "content/en/docs/b.md"],
            [⟨"R100", "content/en/docs/c.md", "content/en/docs/d.md"⟩,
             ⟨"R100", "content/en/docs/c.md", "content/en/docs/d.md"⟩],
            [⟨"content/en/docs/a.md", "1 file changed",
              "diff --git a/content/en/docs/a.md"⟩,
             ⟨"content/en/docs/a.md", "1 file changed",
              "diff --git a/content/en/docs/a.md"⟩]⟩ :=
  claim_c10_second_pass_doubles gitAllExists "L" "R" "content/en" "content/ko"
    _ (by decide)

/-- Per-line contribution to the modified list: a successfully processed
line appends exactly the modified entries of its qualifying `M` path (one
entry, or none). -/
theorem process_diff_status_modified (g : Git) (ds : List String)
    (l r s t : String) (st st' : Lists)
    (h : process_diff_status g ds l r s t st = some st') :
    st'.files_to_be_modified = st.files_to_be_modified ++
      (mLineQualified g r s t ds).map (modifiedEntryFor g l r) := by
  cases ds with
  | nil => simp [process_diff_status_nil] at h
  | cons tok ds' =>
    cases ds' with
    | nil => simp [process_diff_status_single] at h
    | cons fp rest =>
      rw [process_diff_status_cons] at h
      by_cases hex : g.catFileExists r (pyReplace fp s t)
      · rw [if_pos hex] at h
        by_cases hD : tok = "D"
        · rw [if_pos hD] at h
          obtain rfl := (Option.some.injEq _ _).mp h.symm
          simp [mLineQualified, hD, (by decide : ¬ ("D" : String) = "M")]
        · rw [if_neg hD] at h
          by_cases hR : pyStartsWith tok "R" = true
          · rw [if_pos hR] at h
            have hM : ¬ tok = "M" := fun hh => by
              rw [hh] at hR; exact absurd hR (by decide)
            cases h2 : rest[0]? with
            | none => rw [h2] at h; simp at h
            | some dest =>
              rw [h2] at h
              obtain rfl := (Option.some.injEq _ _).mp h.symm
              simp [mLineQualified, hM]
          · rw [if_neg hR] at h
            by_cases hM : tok = "M"
            · rw [if_pos hM] at h
              obtain rfl := (Option.some.injEq _ _).mp h.symm
              simp [mLineQualified, hM, hex]
            · rw [if_neg hM] at h
              obtain rfl := (Option.some.injEq _ _).mp h.symm
              simp [mLineQualified, hM]
      · rw [if_neg hex] at h
        obtain rfl := (Option.some.injEq _ _).mp h.symm
        simp [mLineQualified, hex]

/-- Characterization of the modified list over a whole pass: it is the
initial modified list followed by one entry per qualifying `M` line, in
line order. -/
theorem foldlM_modified_char (g : Git) (l r s t : String)
    (lines : List String) (st0 st : Lists)
    (h : lines.foldlM
      (fun acc line => process_diff_status g (pySplit line) l r s t acc) st0 =
      some st) :
    st.files_to_be_modified = st0.files_to_be_modified ++
      (lines.flatMap (fun line => mLineQualified g r s t (pySplit line))).map
        (modifiedEntryFor g l r) := by
  induction lines generalizing st0 with
  | nil =>
    simp only [List.foldlM_nil, Option.pure_def, Option.some.injEq] at h
    subst h
    simp
  | cons line rest ih =>
    rw [List.foldlM_cons] at h
    cases hp : process_diff_status g (pySplit line) l r s t st0 with
    | none => rw [hp] at h; simp at h
    | some st1 =>
      rw [hp] at h
      simp only [Option.bind_eq_bind, Option.some_bind] at h
      have h1 := process_diff_status_modified g (pySplit line) l r s t st0 st1 hp
      have h2 := ih st1 h
      rw [h2, h1, List.flatMap_cons, List.map_append, List.append_assoc]

/-- The modified list produced by a full classification pass from the empty
state is exactly one entry per qualifying `M` path, in output order. -/
theorem git_diff_name_status_modified_char (g : Git) (l r s t : String)
    (st : Lists)
    (h : git_diff_name_status g l r s t Lists.empty = some st) :
    st.files_to_be_modified =
      (qualifiedMPaths g l r s t).map (modifiedEntryFor g l r) := by
  unfold git_diff_name_status at h
  have := foldlM_modified_char g l r s t _ _ _ h
  simpa [qualifiedMPaths, Lists.empty] using this

/-- Claim C6: for all status lines with token `M` whose localized
counterpart exists at the newer revision, the modified list contains
exactly one entry per distinct source path, and each entry carries a
non-empty full diff text and a non-empty condensed summary text.  (That the
qualifying `M` paths are pairwise distinct, and that git's diff output for
a changed path is non-empty, are facts about the external git collaborator,
taken as hypotheses on the oracle.) -/
theorem claim_c6_modified_entries (g : Git) (l r s t : String) (st : Lists)
    (hrun : git_diff_name_status g l r s t Lists.empty = some st)
    (hnodup : (qualifiedMPaths g l r s t).Nodup)
    (hne : ∀ fp ∈ qualifiedMPaths g l r s t,
      pyStrip (g.diffFull l r fp) ≠ "" ∧ pyStrip (g.diffShortstat l r fp) ≠ "") :
    (∀ fp ∈ qualifiedMPaths g l r s t,
      (st.files_to_be_modified.map ModifiedEntry.filepath).count fp = 1) ∧
    (∀ e ∈ st.files_to_be_modified, e.diff ≠ "" ∧ e.shortstat ≠ "") := by
  have hchar := git_diff_name_status_modified_char g l r s t st hrun
  constructor
  · intro fp hfp
    rw [hchar, List.map_map]
    have hid : (ModifiedEntry.filepath ∘ modifiedEntryFor g l r) = id := rfl
    rw [hid, List.map_id]
    exact List.count_eq_one_of_mem hnodup hfp
  · intro e he
    rw [hchar] at he
    obtain ⟨p, hp, rfl⟩ := List.mem_map.mp he
    exact ⟨(hne p hp).1, (hne p hp).2⟩

/-- Witness for C6 at a concrete input: the one qualifying `M` path yields
exactly one modified entry, with non-empty diff and summary. -/
theorem claim_c6_modified_entries_witness :
    (∀ fp ∈ qualifiedMPaths gitAllExists "L" "R" "content/en" "content/ko",
      ((⟨["content/en/docs/b.md"],
         [⟨"R100", "content/en/docs/c.md", "content/en/docs/d.md"⟩],
         [⟨"content/en/docs/a.md", "1 file changed",
           "diff --git a/content/en/docs/a.md"⟩]⟩ : Lists).files_to_be_modified.map
        ModifiedEntry.filepath).count fp = 1) ∧
    (∀ e ∈ (⟨["content/en/docs/b.md"],
         [⟨"R100", "content/en/docs/c.md", "content/en/docs/d.md"⟩],
         [⟨"content/en/docs/a.md", "1 file changed",
           "diff --git a/content/en/docs/a.md"⟩]⟩ : Lists).files_to_be_modified,
      e.diff ≠ "" ∧ e.shortstat ≠ "") :=
  claim_c6_modified_entries gitAllExists "L" "R" "content/en" "content/ko" _
    (by decide) (by decide) (by decide)

/-- Claim C8: for every input, the rendered report consists of, in this
fixed order: a header naming the newer revision, a checklist section whose
count equals the length of the modified list, a checklist section counting
renames each rendered as status letter, old path, `->`, new path, a
checklist section counting deleted paths, the conditional proposed-solution
content, and a trailing empty "Pages to Update" section, with entries in
list order — the template renderer coincides with the spec-side renderer
assembled from §4.2's numbered fields. -/
theorem claim_c8_fixed_fields (l r s t : String) (lists : Lists) :
    renderIssueTemplate l r s t lists =
      SpecSide.render l r s t lists.files_to_be_modified
        lists.files_to_be_renamed lists.files_to_be_deleted := rfl

/-- Counterexample to claim C1 as stated: rendering with an empty modified
list still produces body text containing the phrase "Proposed Solution" —
the `## Proposed Solution` heading stands outside the template's
conditional block, so the section is not entirely omitted. -/
theorem claim_c1_counterexample :
    strContains
      (renderIssueTemplate "dev-1.15-ko.3" "dev-1.15-ko.4" "content/en"
        "content/ko" ⟨[], [], []⟩) "Proposed Solution" = true := by decide

/-- Claim C1 as amended: the `## Proposed Solution` heading is rendered
unconditionally, but when the modified list is empty the section's *body*
(the worked example) is entirely omitted — nothing but blank spacing stands
between the heading and the trailing "Pages to Update" section; when the
modified list is non-empty the section contains a `git diff` invocation
between the two revisions for the first modified file's path and an edit
command for that path with the source path replaced by the target path. -/
theorem claim_c1_solution_section (l r s t : String) (del : List String)
    (ren : List RenamedEntry) :
    (renderIssueTemplate l r s t ⟨del, ren, []⟩ =
      reportHeader r ++ modifiedSection [] ++ renamedSection ren
        ++ deletedSection del ++ "## Proposed Solution\n\n"
        ++ "\n\n## Pages to Update\n") ∧
    (∀ (m0 : ModifiedEntry) (mrest : List ModifiedEntry), ∃ a b c : String,
      renderIssueTemplate l r s t ⟨del, ren, m0 :: mrest⟩ =
        a ++ ("git diff " ++ l ++ " " ++ r ++ " -- " ++ m0.filepath ++ "\n")
          ++ b ++ ("vi " ++ pyReplace m0.filepath s t ++ "\n") ++ c) := by
  constructor
  · simp only [renderIssueTemplate, proposedSolutionSection,
      pagesToUpdateSection, String.append_assoc, String.append_empty]
  · intro m0 mrest
    refine ⟨reportHeader r ++ modifiedSection (m0 :: mrest) ++ renamedSection ren
      ++ deletedSection del ++ "## Proposed Solution\n\n"
      ++ "\n\nUse `git diff` to check what is changed in the upstream. And apply the upstream changes manually \nto the `"
      ++ t ++ "` of `" ++ r ++ "` branch.\n\nFor example:\n```\n# checkout `"
      ++ r ++ "`\n...\n# check what is updated in the upstream \n",
      "# apply changes to content/ko\n",
      "...\n# commit and push\n...\n# make PR to `" ++ r ++ "`\n```\n\n"
        ++ pagesToUpdateSection, ?_⟩
    simp only [renderIssueTemplate, proposedSolutionSection, solutionBody,
      gitDiffExampleLine, viExampleLine, String.append_assoc]

/-- Claim C7: the candidate localized path used for the existence check is
obtained by textually substituting the target path for the source path in
the line's primary path — the classifier's behaviour on a line depends on
the existence oracle only through its answer at exactly that substituted
path, at the newer revision — and the edit command rendered in the report
applies the same substitution to the first modified file's path. -/
theorem claim_c7_substitution (g g' : Git) (tok fp : String)
    (rest : List String) (l r s t : String) (st : Lists)
    (hfull : g'.diffFull = g.diffFull)
    (hshort : g'.diffShortstat = g.diffShortstat)
    (hex : g'.catFileExists r (pyReplace fp s t) =
      g.catFileExists r (pyReplace fp s t)) :
    (process_diff_status g' (tok :: fp :: rest) l r s t st =
      process_diff_status g (tok :: fp :: rest) l r s t st) ∧
    (∀ (del : List String) (ren : List RenamedEntry) (m0 : ModifiedEntry)
      (mrest : List ModifiedEntry), ∃ a b : String,
      renderIssueTemplate l r s t ⟨del, ren, m0 :: mrest⟩ =
        a ++ ("vi " ++ pyReplace m0.filepath s t ++ "\n") ++ b) := by
  constructor
  · rw [process_diff_status_cons, process_diff_status_cons, hex]
    simp only [modifiedEntryFor, hfull, hshort]
  · intro del ren m0 mrest
    refine ⟨reportHeader r ++ modifiedSection (m0 :: mrest) ++ renamedSection ren
      ++ deletedSection del ++ "## Proposed Solution\n\n"
      ++ "\n\nUse `git diff` to check what is changed in the upstream. And apply the upstream changes manually \nto the `"
      ++ t ++ "` of `" ++ r ++ "` branch.\n\nFor example:\n```\n# checkout `"
      ++ r ++ "`\n...\n# check what is updated in the upstream \n"
      ++ "git diff " ++ l ++ " " ++ r ++ " -- " ++ m0.filepath ++ "\n"
      ++ "# apply changes to content/ko\n",
      "...\n# commit and push\n...\n# make PR to `" ++ r ++ "`\n```\n\n"
        ++ pagesToUpdateSection, ?_⟩
    simp only [renderIssueTemplate, proposedSolutionSection, solutionBody,
      gitDiffExampleLine, viExampleLine, String.append_assoc]

/-- Witness for C7 at a concrete input: the hypotheses are discharged with
a concrete oracle (compared against itself) and a concrete line. -/
theorem claim_c7_substitution_witness :
    (process_diff_status gitAllExists ["M", "content/en/docs/a.md"] "L" "R"
      "content/en" "content/ko" Lists.empty =
     process_diff_status gitAllExists ["M", "content/en/docs/a.md"] "L" "R"
      "content/en" "content/ko" Lists.empty) ∧
    (∀ (del : List String) (ren : List RenamedEntry) (m0 : ModifiedEntry)
      (mrest : List ModifiedEntry), ∃ a b : String,
      renderIssueTemplate "L" "R" "content/en" "content/ko"
        ⟨del, ren, m0 :: mrest⟩ =
        a ++ ("vi " ++ pyReplace m0.filepath "content/en" "content/ko" ++ "\n")
          ++ b) :=
  claim_c7_substitution gitAllExists gitAllExists "M" "content/en/docs/a.md"
    [] "L" "R" "content/en" "content/ko" Lists.empty rfl rfl rfl

end DiffL10n
